import Mathlib

/-!
Shallow embedding of the level-file codec and analyzer of the
duke3d-cli-tools repository (the `mapinfo.c` tool, present in two
variants), together with the structural validator described by the
specification.

Conventions of the embedding:
* machine integers are `Int` (signed fields) or `Nat` (unsigned fields),
  with the byte-level decoder producing exactly the values the C code
  obtains on a little-endian machine;
* the C code calls `fread` without ever checking its result, so the byte
  cursor below never fails: a read past the end of the data yields the
  bytes that are available and pads the missing high-order bytes with 0
  (the `map_t` object is zero-initialised in `main`, so untouched
  map-level fields are 0; for heap-allocated record arrays this models
  the zero-page execution, and none of the theorems below depend on the
  junk values of part-way read record fields);
* the `printf` performed by `sector_print` inside `is_single_player` is
  modelled as an output trace: the second component of the result lists
  the sector records printed, in order.
-/

/-- Two signed 32-bit components (C struct `vec2_i32_s`). -/
structure vec2_i32_t where
  x : Int
  y : Int
  deriving DecidableEq

/-- Two signed 8-bit components (C struct `vec2_i8_s`). -/
structure vec2_i8_t where
  x : Int
  y : Int
  deriving DecidableEq

/-- Two unsigned 8-bit components (C struct `vec2_u8_s`). -/
structure vec2_u8_t where
  x : Nat
  y : Nat
  deriving DecidableEq

/-- Three signed 16-bit components (C struct `vec3_i16_s`). -/
structure vec3_i16_t where
  x : Int
  y : Int
  z : Int
  deriving DecidableEq

/-- Three signed 32-bit components (C struct `vec3_i32_s`). -/
structure vec3_i32_t where
  x : Int
  y : Int
  z : Int
  deriving DecidableEq

/-- C struct `player_s`: 3D position plus facing angle. -/
structure player_t where
  position : vec3_i32_t
  angle : Int
  deriving DecidableEq

/-- C struct `ceilling_floor_s` (field order as declared in the source). -/
structure ceilling_floor_t where
  shade : Int
  height : Int
  pic : Int
  slope : Int
  stat : Int
  palette : Nat
  panning : vec2_u8_t
  deriving DecidableEq

/-- C struct `sector_s`. `wall_ptr` and `wall_count` are signed 16-bit. -/
structure sector_t where
  wall_ptr : Int
  wall_count : Int
  ceilling : ceilling_floor_t
  floor : ceilling_floor_t
  visibility : Nat
  filler : Nat
  lotag : Int
  hitag : Int
  extra : Int
  deriving DecidableEq

/-- C struct `wall_s`. The C field `repeat` is spelled `repeat_` here
because `repeat` is a Lean keyword. -/
structure wall_t where
  position : vec2_i32_t
  wall_next_right : Int
  wall_next_left : Int
  sector_next : Int
  stat : Int
  pic : Int
  pic_over : Int
  shade : Int
  pal : Nat
  repeat_ : vec2_u8_t
  panning : vec2_u8_t
  lotag : Int
  hitag : Int
  extra : Int
  deriving DecidableEq

/-- C struct `sprite_s` of the first variant (`part_001`), where `lotag`
and `hitag` are declared `unsigned short`. The C field `repeat` is
spelled `repeat_` here because `repeat` is a Lean keyword. -/
structure sprite_t where
  position : vec3_i32_t
  stat : Int
  pic : Int
  shade : Int
  pal : Nat
  clipping_distance : Nat
  filler : Nat
  repeat_ : vec2_u8_t
  offset : vec2_i8_t
  sector : Int
  status : Int
  angle : Int
  owner : Int
  vel : vec3_i16_t
  lotag : Nat
  hitag : Nat
  extra : Int
  deriving DecidableEq

/-- C struct `sprite_s` of the second variant (`part_002`), where `lotag`
and `hitag` are declared plain (signed) `short`. -/
structure sprite_v2_t where
  position : vec3_i32_t
  stat : Int
  pic : Int
  shade : Int
  pal : Nat
  clipping_distance : Nat
  filler : Nat
  repeat_ : vec2_u8_t
  offset : vec2_i8_t
  sector : Int
  status : Int
  angle : Int
  owner : Int
  vel : vec3_i16_t
  lotag : Int
  hitag : Int
  extra : Int
  deriving DecidableEq

/-- C struct `map_s`: header version, player start, and the three
variable-length record arrays with their declared (unsigned 16-bit)
counts. The C pointers become Lean lists. -/
structure map_t where
  version : Int
  player : player_t
  sector_start : Int
  sector_count : Nat
  sector : List sector_t
  wall_count : Nat
  wall : List wall_t
  sprite_count : Nat
  sprite : List sprite_t
  deriving DecidableEq

/-- A byte cursor over an in-memory file: the bytes not yet consumed
(the `FILE*` read position of the C code is the number of bytes already
dropped from the front). `fread` of `n` bytes delivers up to the first
`n` of them — fewer when the file ends first — and leaves the rest. -/
abbrev Cursor : Type := List Nat

/-- Little-endian value of a byte list (each byte taken mod 256).
Missing high-order bytes of a short read contribute 0, matching the
zero-initialised memory the unchecked `fread` leaves untouched. -/
def leVal : List Nat → Nat
  | [] => 0
  | b :: bs => b % 256 + 256 * leVal bs

/-- Read `w` bytes as an unsigned little-endian integer
(`fread(&x, 1, w, fp)` into an unsigned field). -/
def readU (w : Nat) (c : Cursor) : Nat × Cursor :=
  (leVal (c.take w), c.drop w)

/-- Reinterpret an unsigned `b`-bit value as a twos-complement signed
value. -/
def toSigned (b : Nat) (v : Nat) : Int :=
  if v < 2 ^ (b - 1) then (v : Int) else (v : Int) - 2 ^ b

/-- Read `w` bytes as a signed little-endian integer
(`fread(&x, 1, w, fp)` into a signed field of `w` bytes). -/
def readI (w : Nat) (c : Cursor) : Int × Cursor :=
  (toSigned (8 * w) (readU w c).1, (readU w c).2)

/-- Decode `n` consecutive records with the given record reader: the
decode loops of `map_read`. -/
def readRecords {α : Type} (rd : Cursor → α × Cursor) : Nat → Cursor → List α × Cursor
  | 0, c => ([], c)
  | Nat.succ n, c =>
    let (r, c1) := rd c
    let (rs, c2) := readRecords rd n c1
    (r :: rs, c2)

/-- C function `sector_read` (identical in both variants): one 40-byte
sector record, fields in the exact `fread` order of the source. -/
def sector_read (c0 : Cursor) : sector_t × Cursor :=
  let (wall_ptr, c) := readI 2 c0
  let (wall_count, c) := readI 2 c
  let (ceilling_height, c) := readI 4 c
  let (floor_height, c) := readI 4 c
  let (ceilling_stat, c) := readI 2 c
  let (floor_stat, c) := readI 2 c
  let (ceilling_pic, c) := readI 2 c
  let (ceilling_slope, c) := readI 2 c
  let (ceilling_shade, c) := readI 1 c
  let (ceilling_palette, c) := readU 1 c
  let (ceilling_panning_x, c) := readU 1 c
  let (ceilling_panning_y, c) := readU 1 c
  let (floor_pic, c) := readI 2 c
  let (floor_slope, c) := readI 2 c
  let (floor_shade, c) := readI 1 c
  let (floor_palette, c) := readU 1 c
  let (floor_panning_x, c) := readU 1 c
  let (floor_panning_y, c) := readU 1 c
  let (visibility, c) := readU 1 c
  let (filler, c) := readU 1 c
  let (lotag, c) := readI 2 c
  let (hitag, c) := readI 2 c
  let (extra, c) := readI 2 c
  (⟨wall_ptr, wall_count,
    ⟨ceilling_shade, ceilling_height, ceilling_pic, ceilling_slope,
     ceilling_stat, ceilling_palette, ⟨ceilling_panning_x, ceilling_panning_y⟩⟩,
    ⟨floor_shade, floor_height, floor_pic, floor_slope,
     floor_stat, floor_palette, ⟨floor_panning_x, floor_panning_y⟩⟩,
    visibility, filler, lotag, hitag, extra⟩, c)

/-- C function `wall_read` (identical in both variants): one 32-byte
wall record, fields in the exact `fread` order of the source. -/
def wall_read (c0 : Cursor) : wall_t × Cursor :=
  let (position_x, c) := readI 4 c0
  let (position_y, c) := readI 4 c
  let (wall_next_right, c) := readI 2 c
  let (wall_next_left, c) := readI 2 c
  let (sector_next, c) := readI 2 c
  let (stat, c) := readI 2 c
  let (pic, c) := readI 2 c
  let (pic_over, c) := readI 2 c
  let (shade, c) := readI 1 c
  let (pal, c) := readU 1 c
  let (repeat_x, c) := readU 1 c
  let (repeat_y, c) := readU 1 c
  let (panning_x, c) := readU 1 c
  let (panning_y, c) := readU 1 c
  let (lotag, c) := readI 2 c
  let (hitag, c) := readI 2 c
  let (extra, c) := readI 2 c
  (⟨⟨position_x, position_y⟩, wall_next_right, wall_next_left, sector_next,
    stat, pic, pic_over, shade, pal, ⟨repeat_x, repeat_y⟩,
    ⟨panning_x, panning_y⟩, lotag, hitag, extra⟩, c)

/-- C function `sprite_read` of the first variant (`part_001`): one
44-byte sprite record; `lotag` and `hitag` land in `unsigned short`
fields and therefore decode unsigned. -/
def sprite_read (c0 : Cursor) : sprite_t × Cursor :=
  let (position_x, c) := readI 4 c0
  let (position_y, c) := readI 4 c
  let (position_z, c) := readI 4 c
  let (stat, c) := readI 2 c
  let (pic, c) := readI 2 c
  let (shade, c) := readI 1 c
  let (pal, c) := readU 1 c
  let (clipping_distance, c) := readU 1 c
  let (filler, c) := readU 1 c
  let (repeat_x, c) := readU 1 c
  let (repeat_y, c) := readU 1 c
  let (offset_x, c) := readI 1 c
  let (offset_y, c) := readI 1 c
  let (sector, c) := readI 2 c
  let (status, c) := readI 2 c
  let (angle, c) := readI 2 c
  let (owner, c) := readI 2 c
  let (vel_x, c) := readI 2 c
  let (vel_y, c) := readI 2 c
  let (vel_z, c) := readI 2 c
  let (lotag, c) := readU 2 c
  let (hitag, c) := readU 2 c
  let (extra, c) := readI 2 c
  (⟨⟨position_x, position_y, position_z⟩, stat, pic, shade, pal,
    clipping_distance, filler, ⟨repeat_x, repeat_y⟩, ⟨offset_x, offset_y⟩,
    sector, status, angle, owner, ⟨vel_x, vel_y, vel_z⟩,
    lotag, hitag, extra⟩, c)

/-- C function `sprite_read` of the second variant (`part_002`):
byte-for-byte the same reads, but `lotag` and `hitag` land in plain
(signed) `short` fields and therefore decode signed. -/
def sprite_read_v2 (c0 : Cursor) : sprite_v2_t × Cursor :=
  let (position_x, c) := readI 4 c0
  let (position_y, c) := readI 4 c
  let (position_z, c) := readI 4 c
  let (stat, c) := readI 2 c
  let (pic, c) := readI 2 c
  let (shade, c) := readI 1 c
  let (pal, c) := readU 1 c
  let (clipping_distance, c) := readU 1 c
  let (filler, c) := readU 1 c
  let (repeat_x, c) := readU 1 c
  let (repeat_y, c) := readU 1 c
  let (offset_x, c) := readI 1 c
  let (offset_y, c) := readI 1 c
  let (sector, c) := readI 2 c
  let (status, c) := readI 2 c
  let (angle, c) := readI 2 c
  let (owner, c) := readI 2 c
  let (vel_x, c) := readI 2 c
  let (vel_y, c) := readI 2 c
  let (vel_z, c) := readI 2 c
  let (lotag, c) := readI 2 c
  let (hitag, c) := readI 2 c
  let (extra, c) := readI 2 c
  (⟨⟨position_x, position_y, position_z⟩, stat, pic, shade, pal,
    clipping_distance, filler, ⟨repeat_x, repeat_y⟩, ⟨offset_x, offset_y⟩,
    sector, status, angle, owner, ⟨vel_x, vel_y, vel_z⟩,
    lotag, hitag, extra⟩, c)

/-- C function `map_read` (identical decode structure in both variants),
over the bytes of one file. The C function never checks an `fread`
result, so it is total: every byte stream, truncated or not, yields a
fully constructed `map_t`. `malloc` is assumed to succeed. -/
def map_read (bytes : List Nat) : map_t :=
  let (version, c) := readI 4 bytes
  let (player_x, c) := readI 4 c
  let (player_y, c) := readI 4 c
  let (player_z, c) := readI 4 c
  let (player_angle, c) := readI 2 c
  let (sector_start, c) := readI 2 c
  let (sector_count, c) := readU 2 c
  let (sectors, c) := readRecords sector_read sector_count c
  let (wall_count, c) := readU 2 c
  let (walls, c) := readRecords wall_read wall_count c
  let (sprite_count, c) := readU 2 c
  let (sprites, _) := readRecords sprite_read sprite_count c
  ⟨version, ⟨⟨player_x, player_y, player_z⟩, player_angle⟩, sector_start,
   sector_count, sectors, wall_count, walls, sprite_count, sprites⟩

/-- Verdict string of the `lotag == 32767` branch of `is_single_player`. -/
def sp_msg_32767 : String := "Yes (??)"

/-- Verdict string of the `lotag == 65534` branch of `is_single_player`. -/
def sp_msg_65534 : String := "Yes (\"We\x27re gonna fry your ass, Nukem!\")"

/-- Verdict string of the `lotag == 65535` branch of `is_single_player`. -/
def sp_msg_65535 : String := "Yes (Normal nuke button)"

/-- Verdict string of the `pal == 14` branch of `is_single_player`. -/
def sp_msg_secret : String := "Yes (Secret level exit)"

/-- The body of the sprite loop of `is_single_player`: for one sprite,
the verdict the loop would return for it, or `none` when the loop moves
on to the next sprite. The tests appear in the exact source order:
`pic == 142`, then `lotag == 32767`, `lotag == 65534`, `lotag == 65535`,
and only then `pal == 14`. -/
def sp_check (s : sprite_t) : Option String :=
  if s.pic = 142 then
    if s.lotag = 32767 then some sp_msg_32767
    else if s.lotag = 65534 then some sp_msg_65534
    else if s.lotag = 65535 then some sp_msg_65535
    else if s.pal = 14 then some sp_msg_secret
    else none
  else none

/-- The sprite loop of `is_single_player`: first matching sprite wins. -/
def sp_scan : List sprite_t → Option String
  | [] => none
  | s :: rest =>
    match sp_check s with
    | some r => some r
    | none => sp_scan rest

/-- C function `is_single_player` (`part_001`). The first component is
the returned verdict string; the second is the output trace: when no
sprite matches, the source calls `sector_print` on every sector before
returning "No", and the trace lists the sectors printed, in order. -/
def is_single_player (m : map_t) : String × List sector_t :=
  match sp_scan m.sprite with
  | some r => (r, [])
  | none => ("No", m.sector)

/-- The counting loop shared by `is_dukematch` and `is_coop`: number of
sprites with `pic == 1405` and the given `lotag` value, accumulated left
to right exactly as the C `for` loop does. -/
def aplayer_count (tag : Nat) (sprites : List sprite_t) : Nat :=
  sprites.foldl (fun r s => if s.pic = 1405 ∧ s.lotag = tag then r + 1 else r) 0

/-- C function `is_dukematch` (`part_001`): count sprites with
`pic == 1405 && lotag == 0`; nonzero count yields
"Yes (count+1 players)", zero yields "No". -/
def is_dukematch (m : map_t) : String :=
  let result := aplayer_count 0 m.sprite
  if result ≠ 0 then "Yes (" ++ toString (result + 1) ++ " players)" else "No"

/-- C function `is_coop` (`part_001`): same scan with `lotag == 1`. -/
def is_coop (m : map_t) : String :=
  let result := aplayer_count 1 m.sprite
  if result ≠ 0 then "Yes (" ++ toString (result + 1) ++ " players)" else "No"

/-- C function `is_vanilla_compatible` (`part_001`). -/
def is_vanilla_compatible (m : map_t) : String :=
  if m.sector_count ≤ 1024 ∧ m.wall_count ≤ 8192 ∧ m.sprite_count ≤ 4096 then
    "Yes"
  else
    "No"

/-- The `error_fopen` exit code of `mapinfo.c` (enum starting at
`error_fclose = 2`). `safe_fopen` calls `exit(error_fopen)` when `fopen`
fails. -/
def error_fopen : Nat := 3

/-- The file loop of `main` in `mapinfo.c`: each argument is either an
openable file (`some bytes`) or an unopenable path (`none`). `map_read`,
`map_print` and `map_free` cannot fail, so the only failure point is
`safe_fopen`, which terminates the whole process with `exit(error_fopen)`.
Result: (number of files fully processed, process exit code), where exit
code 0 is `EXIT_SUCCESS`. -/
def run_batch : List (Option (List Nat)) → Nat × Nat
  | [] => (0, 0)
  | none :: _ => (0, error_fopen)
  | some _ :: rest =>
    let (k, code) := run_batch rest
    (k + 1, code)

/-- Modelled from the spec: the kinds of structural violation reported by
the Structural Validator of §4.3. The repository source contains no
validator implementation, only this specification of one; each
constructor carries the index of the offending record. -/
inductive violation_t where
  | sector_range (i : Nat)
  | wall_next_right_bad (i : Nat)
  | wall_next_left_bad (i : Nat)
  | wall_next_sector_bad (i : Nat)
  | sprite_sector_bad (i : Nat)
  | sprite_owner_bad (i : Nat)
  | sector_start_bad
  deriving DecidableEq

/-- Modelled from the spec: an index field is valid when it is the
sentinel −1 or a valid index of an array of `count` elements. -/
def index_valid (count : Nat) (v : Int) : Bool :=
  v = -1 ∨ (0 ≤ v ∧ v < (count : Int))

/-- Modelled from the spec: the wall range of a sector is in violation iff
`wall_start < 0 OR wall_start + wall_count > total_walls`. -/
def sector_range_bad (total_walls : Nat) (s : sector_t) : Bool :=
  s.wall_ptr < 0 ∨ (total_walls : Int) < s.wall_ptr + s.wall_count

/-- Walk one record array, recording a violation `g i` for each record
at index `i` whose check `p` fires; collects every violation, in record
order, without stopping at the first. -/
def scan_violations {α : Type} (p : α → Bool) (g : Nat → violation_t) :
    Nat → List α → List violation_t
  | _, [] => []
  | i, x :: xs => (if p x then [g i] else []) ++ scan_violations p g (i + 1) xs

/-- Modelled from the spec (§4.3): the Structural Validator. Given a
fully decoded map it returns the ordered list of all structural
violations: every sector whose `[wall_start, wall_start+wall_count)`
range escapes the wall array, every wall whose `next_wall_right`,
`next_wall_left` or `next_sector` is neither −1 nor in range, every
sprite whose `sector` or `owner` is neither −1 nor in range, and a
`sector_start` outside the sector array. A pure function: it never
mutates the map and never aborts early. -/
def map_validate (m : map_t) : List violation_t :=
  scan_violations (sector_range_bad m.wall.length) violation_t.sector_range 0 m.sector
  ++ scan_violations (fun w => !index_valid m.wall.length w.wall_next_right)
      violation_t.wall_next_right_bad 0 m.wall
  ++ scan_violations (fun w => !index_valid m.wall.length w.wall_next_left)
      violation_t.wall_next_left_bad 0 m.wall
  ++ scan_violations (fun w => !index_valid m.sector.length w.sector_next)
      violation_t.wall_next_sector_bad 0 m.wall
  ++ scan_violations (fun s => !index_valid m.sector.length s.sector)
      violation_t.sprite_sector_bad 0 m.sprite
  ++ scan_violations (fun s => !index_valid m.sprite.length s.owner)
      violation_t.sprite_owner_bad 0 m.sprite
  ++ (if index_valid m.sector.length m.sector_start then [] else [violation_t.sector_start_bad])

/-- A sprite record with every field zero, used to build concrete maps
in the closed test theorems below. -/
def zero_sprite : sprite_t :=
  ⟨⟨0, 0, 0⟩, 0, 0, 0, 0, 0, 0, ⟨0, 0⟩, ⟨0, 0⟩, 0, 0, 0, 0, ⟨0, 0, 0⟩, 0, 0, 0⟩

/-- A sector record with every field zero. -/
def zero_sector : sector_t :=
  ⟨0, 0, ⟨0, 0, 0, 0, 0, 0, ⟨0, 0⟩⟩, ⟨0, 0, 0, 0, 0, 0, ⟨0, 0⟩⟩, 0, 0, 0, 0, 0⟩

/-- A map whose three declared counts are the given values; the record
lists themselves are irrelevant to `is_vanilla_compatible`, which reads
only the count fields. -/
def mk_count_map (sc wc pc : Nat) : map_t :=
  ⟨0, ⟨⟨0, 0, 0⟩, 0⟩, 0, sc, [], wc, [], pc, []⟩

/-- Overwrite the two cross-array index fields of a sprite (`sector` and
`owner`) with arbitrary values, leaving every other field unchanged. -/
def set_sprite_indices (sec own : Int) (s : sprite_t) : sprite_t :=
  ⟨s.position, s.stat, s.pic, s.shade, s.pal, s.clipping_distance, s.filler,
   s.repeat_, s.offset, sec, s.status, s.angle, own, s.vel, s.lotag, s.hitag, s.extra⟩

/-- Replace the wall list and sprite list of a map, leaving the counts and
everything else unchanged. -/
def with_walls_sprites (m : map_t) (w : List wall_t) (spr : List sprite_t) : map_t :=
  ⟨m.version, m.player, m.sector_start, m.sector_count, m.sector,
   m.wall_count, w, m.sprite_count, spr⟩

/-- A well-formed byte stream truncated after the sector count: 20 bytes
of header/player data (all zero), then a declared `sector_count` of 1,
and then end of file — none of the 40 bytes of the declared sector
record are present. -/
def truncated_input : List Nat := List.replicate 20 0 ++ [1, 0]

/-- The 44 bytes of one sprite record whose last three 16-bit fields
(`lotag`, `hitag`, `extra`) are all `0xFFFF`, everything else zero. -/
def sprite_tail_bytes : List Nat := List.replicate 38 0 ++ [255, 255, 255, 255, 255, 255]

/-- A sprite of picture id 1405 (`APLAYER`) with the given `lotag`,
everything else zero. -/
def aplayer_sprite (tag : Nat) : sprite_t :=
  ⟨⟨0, 0, 0⟩, 0, 1405, 0, 0, 0, 0, ⟨0, 0⟩, ⟨0, 0⟩, 0, 0, 0, 0, ⟨0, 0, 0⟩, tag, 0, 0⟩

/-- A nuke-button sprite (`pic == 142`) with `lotag == 32767` and
`pal == 14`, so that the lotag sentinel and the secret-exit test both
apply to it. -/
def demo_sp_sprite : sprite_t :=
  ⟨⟨0, 0, 0⟩, 0, 142, 0, 14, 0, 0, ⟨0, 0⟩, ⟨0, 0⟩, 0, 0, 0, 0, ⟨0, 0, 0⟩, 32767, 0, 0⟩

/-- A map with one nuke-button sprite. -/
def demo_sp_map : map_t :=
  ⟨0, ⟨⟨0, 0, 0⟩, 0⟩, 0, 0, [], 0, [], 1, [demo_sp_sprite]⟩

/-- A map with one cooperative and one deathmatch player-start sprite. -/
def demo_mp_map : map_t :=
  ⟨0, ⟨⟨0, 0, 0⟩, 0⟩, 0, 0, [], 0, [], 2, [aplayer_sprite 1, aplayer_sprite 0]⟩

/-- A map with one sector, no sprites: `is_single_player` finds no match
on it and so runs its `sector_print` loop. -/
def demo_no_sp_map : map_t :=
  ⟨7, ⟨⟨0, 0, 0⟩, 0⟩, 0, 1, [zero_sector], 0, [], 0, []⟩

/-- The matching condition of the sprite loop of `is_single_player`:
picture id 142 and (one of the three lotag sentinels, or palette 14). -/
def sp_matches (s : sprite_t) : Prop :=
  s.pic = 142 ∧ (s.lotag = 32767 ∨ s.lotag = 65534 ∨ s.lotag = 65535 ∨ s.pal = 14)

instance sp_matches_decidable (s : sprite_t) : Decidable (sp_matches s) := by
  unfold sp_matches
  infer_instance

lemma readRecords_length {α : Type} (rd : Cursor → α × Cursor) :
    ∀ (n : Nat) (c : Cursor), (readRecords rd n c).1.length = n := by
  intro n
  induction n with
  | zero => intro c; rfl
  | succ k ih =>
    intro c
    simp only [readRecords]
    simp [ih]

lemma leVal_lt : ∀ l : List Nat, leVal l < 256 ^ l.length := by
  intro l
  induction l with
  | nil => simp [leVal]
  | cons b bs ih =>
    have hb : b % 256 < 256 := Nat.mod_lt _ (by norm_num)
    simp only [leVal, List.length_cons, pow_succ]
    generalize leVal bs = A at ih ⊢
    generalize (256 : Nat) ^ bs.length = B at ih ⊢
    omega

lemma leVal_take2_lt (l : List Nat) : leVal (l.take 2) < 65536 := by
  calc leVal (l.take 2) < 256 ^ (l.take 2).length := leVal_lt _
    _ ≤ 256 ^ 2 := by
        apply Nat.pow_le_pow_right (by norm_num)
        simp only [List.length_take]
        omega
    _ = 65536 := by norm_num

/-- Claim C1: for every map, the engine-compatibility verdict is
"compatible" ("Yes") iff `sector_count <= 1024` and `wall_count <= 8192`
and `sprite_count <= 4096`; each boundary value is compatible and one
above each boundary is not. -/
theorem vanilla_compatible_iff :
    (∀ m : map_t, is_vanilla_compatible m = "Yes" ↔
      m.sector_count ≤ 1024 ∧ m.wall_count ≤ 8192 ∧ m.sprite_count ≤ 4096) ∧
    is_vanilla_compatible (mk_count_map 1024 8192 4096) = "Yes" ∧
    is_vanilla_compatible (mk_count_map 1025 8192 4096) = "No" ∧
    is_vanilla_compatible (mk_count_map 1024 8193 4096) = "No" ∧
    is_vanilla_compatible (mk_count_map 1024 8192 4097) = "No" := by
  refine ⟨fun m => ?_, by decide, by decide, by decide, by decide⟩
  unfold is_vanilla_compatible
  split_ifs with h
  · exact ⟨fun _ => h, fun _ => rfl⟩
  · exact ⟨fun hc => absurd hc (by decide), fun hc => absurd hc h⟩

/-- Witness for C1: the characterization applied at a concrete map. -/
theorem vanilla_compatible_iff_witness :
    is_vanilla_compatible (mk_count_map 3 4 5) = "Yes" :=
  (vanilla_compatible_iff.1 (mk_count_map 3 4 5)).mpr (by decide)

/-- Claim C5 (code bug): `map_read` never checks an `fread` result, so it
is a total function: every byte stream, however truncated, yields a fully
constructed map whose list lengths equal the declared counts, and in
particular the 22-byte stream `truncated_input` — which declares one
40-byte sector record and then ends — decodes without any error signal to
a map with a declared and populated sector array of length 1. -/
theorem map_read_ignores_truncation :
    (∀ bs : List Nat,
      (map_read bs).sector.length = (map_read bs).sector_count ∧
      (map_read bs).wall.length = (map_read bs).wall_count ∧
      (map_read bs).sprite.length = (map_read bs).sprite_count) ∧
    truncated_input.length = 22 ∧
    (map_read truncated_input).sector_count = 1 ∧
    (map_read truncated_input).sector.length = 1 ∧
    (map_read truncated_input).wall_count = 0 ∧
    (map_read truncated_input).sprite_count = 0 := by
  refine ⟨fun bs => ?_, by decide, by decide, by decide, by decide, by decide⟩
  simp [map_read, readRecords_length]

/-- Claim C7 (code bug): on a map with a sector and no matching sprite,
`is_single_player` produces a nonempty output trace — the source calls
`sector_print` (a `printf`) on every sector before returning "No", so the
derivation is not free of I/O. -/
theorem single_player_prints_sectors :
    is_single_player demo_no_sp_map = ("No", [zero_sector]) ∧
    ([zero_sector] : List sector_t) ≠ [] := by
  exact ⟨rfl, by decide⟩

/-- Counterexample to claim C8: with an unopenable first file and an
openable second file, the batch driver stops at the first file with
process exit code `error_fopen` (3) and never processes the second file,
whereas with both files openable both are processed. A single file
failure therefore aborts the whole batch. -/
theorem batch_aborts_on_unopenable_file :
    run_batch [none, some []] = (0, error_fopen) ∧
    run_batch [some [], some []] = (2, 0) ∧
    error_fopen ≠ 0 := by
  decide

/-- Claim C8 as amended: a batch of openable files is processed in full
with exit code 0, and a batch containing an unopenable file is processed
only up to that file, at which point the process exits with
`error_fopen`. -/
theorem batch_exit_on_first_open_failure :
    (∀ files : List (Option (List Nat)),
      (∀ x ∈ files, x.isSome) → run_batch files = (files.length, 0)) ∧
    (∀ pre post : List (Option (List Nat)),
      (∀ x ∈ pre, x.isSome) →
        run_batch (pre ++ none :: post) = (pre.length, error_fopen)) := by
  constructor
  · intro files h
    induction files with
    | nil => rfl
    | cons f rest ih =>
      cases f with
      | none => exact absurd (h none (by simp)) (by simp)
      | some b =>
        have hr := ih (fun x hx => h x (List.mem_cons_of_mem _ hx))
        simp [run_batch, hr]
  · intro pre post h
    induction pre with
    | nil => rfl
    | cons f pres ih =>
      cases f with
      | none => exact absurd (h none (by simp)) (by simp)
      | some b =>
        have hr := ih (fun x hx => h x (List.mem_cons_of_mem _ hx))
        simp [run_batch, hr]

/-- Witness for the amended C8: one openable file, then an unopenable
one, then another openable one — exactly one file is processed and the
process exits with code 3. -/
theorem batch_exit_on_first_open_failure_witness :
    run_batch [some [], none, some []] = (1, error_fopen) :=
  batch_exit_on_first_open_failure.2 [some []] [some []] (by decide)

/-- Counterexample to claim C9: on the same 44 record bytes (tag fields
all `0xFFFF`), the first variant decodes `lotag`/`hitag` to 65535
(unsigned) while the second variant decodes them to −1 (signed): the two
level-dumper variants do not agree on the decoding, so the sentinel
65535 is reachable only in the first. -/
theorem sprite_tag_variants_disagree :
    (sprite_read sprite_tail_bytes).1.lotag = 65535 ∧
    (sprite_read sprite_tail_bytes).1.hitag = 65535 ∧
    (sprite_read sprite_tail_bytes).1.extra = -1 ∧
    (sprite_read_v2 sprite_tail_bytes).1.lotag = -1 ∧
    (sprite_read_v2 sprite_tail_bytes).1.hitag = -1 ∧
    (sprite_read_v2 sprite_tail_bytes).1.extra = -1 ∧
    ((65535 : Int) ≠ -1) := by
  decide

set_option maxHeartbeats 1000000 in
/-- Claim C9 as amended: the first variant decodes sprite `lotag` and
`hitag` as unsigned 16-bit (always below 65536) and `extra` as signed
16-bit; the second variant reads the same bytes but reinterprets
`lotag`/`hitag` as signed 16-bit, agreeing with the first variant only
on `extra` and on the remaining byte stream after the record. -/
theorem sprite_tag_decoding_relation :
    ∀ c : Cursor,
      (sprite_read c).1.lotag < 65536 ∧
      (sprite_read c).1.hitag < 65536 ∧
      (sprite_read_v2 c).1.lotag = toSigned 16 (sprite_read c).1.lotag ∧
      (sprite_read_v2 c).1.hitag = toSigned 16 (sprite_read c).1.hitag ∧
      (sprite_read_v2 c).1.extra = (sprite_read c).1.extra ∧
      (sprite_read_v2 c).2 = (sprite_read c).2 := by
  intro c
  refine ⟨?_, ?_, ?_, ?_, ?_, ?_⟩
  · simp only [sprite_read, readI, readU]
    exact leVal_take2_lt _
  · simp only [sprite_read, readI, readU]
    exact leVal_take2_lt _
  · simp only [sprite_read, sprite_read_v2, readI, readU]
  · simp only [sprite_read, sprite_read_v2, readI, readU]
  · simp only [sprite_read, sprite_read_v2, readI, readU]
  · simp only [sprite_read, sprite_read_v2, readI, readU]

/-- Claim C10: inside the `pic == 142` branch, the three lotag sentinel
tests run before the `pal == 14` test, so a sprite carrying both a lotag
sentinel and palette 14 is always reported under the lotag sentinel and
never as the secret-exit case. -/
theorem lotag_tested_before_pal :
    ∀ s : sprite_t, s.pic = 142 → s.pal = 14 →
      (s.lotag = 32767 → sp_check s = some sp_msg_32767) ∧
      (s.lotag = 65534 → sp_check s = some sp_msg_65534) ∧
      (s.lotag = 65535 → sp_check s = some sp_msg_65535) ∧
      ((s.lotag = 32767 ∨ s.lotag = 65534 ∨ s.lotag = 65535) →
        sp_check s ≠ some sp_msg_secret) := by
  intro s hpic hpal
  refine ⟨fun h => by simp [sp_check, hpic, h],
          fun h => by simp [sp_check, hpic, h],
          fun h => by simp [sp_check, hpic, h], ?_⟩
  rcases Classical.em (s.lotag = 32767) with h | h
  · intro _; simp [sp_check, hpic, h]; decide
  · rintro (h' | h' | h')
    · exact absurd h' h
    · simp [sp_check, hpic, h']; decide
    · simp [sp_check, hpic, h']; decide

/-- Witness for C10: a concrete sprite with `pic = 142`, `lotag = 32767`
and `pal = 14` is classified under the lotag sentinel, not as a secret
exit. -/
theorem lotag_tested_before_pal_witness :
    sp_check demo_sp_sprite = some sp_msg_32767 ∧
    sp_check demo_sp_sprite ≠ some sp_msg_secret := by
  have h := lotag_tested_before_pal demo_sp_sprite rfl rfl
  exact ⟨h.1 rfl, h.2.2.2 (Or.inl rfl)⟩

lemma sp_check_isSome_iff (s : sprite_t) : (sp_check s).isSome ↔ sp_matches s := by
  unfold sp_check sp_matches
  split_ifs with h1 h2 h3 h4 h5 <;> simp_all

lemma sp_check_ne_no {s : sprite_t} {r : String} (h : sp_check s = some r) : r ≠ "No" := by
  unfold sp_check at h
  split_ifs at h <;> first
    | exact Option.noConfusion h
    | (injection h with h
       subst h
       decide)

lemma sp_scan_eq_some {l : List sprite_t} {r : String} (h : sp_scan l = some r) :
    ∃ s ∈ l, sp_check s = some r := by
  induction l with
  | nil => exact Option.noConfusion h
  | cons s rest ih =>
    unfold sp_scan at h
    cases hc : sp_check s with
    | some r' =>
      rw [hc] at h
      injection h with h
      exact ⟨s, List.mem_cons_self s rest, by rw [hc, h]⟩
    | none =>
      rw [hc] at h
      obtain ⟨s', hs', hr'⟩ := ih h
      exact ⟨s', List.mem_cons_of_mem _ hs', hr'⟩

lemma sp_scan_isSome_iff (l : List sprite_t) :
    (sp_scan l).isSome ↔ ∃ s ∈ l, sp_matches s := by
  induction l with
  | nil => simp [sp_scan]
  | cons s rest ih =>
    unfold sp_scan
    cases hc : sp_check s with
    | some r =>
      have hm : sp_matches s := (sp_check_isSome_iff s).1 (by rw [hc]; rfl)
      simpa using Or.inl hm
    | none =>
      have hm : ¬sp_matches s := fun hm => by
        have := (sp_check_isSome_iff s).2 hm
        rw [hc] at this
        exact Bool.noConfusion this
      simp [ih, hm]

/-- Claim C2: single-player presence holds iff some sprite has picture
id 142 and (a lotag sentinel in {32767, 65534, 65535} or palette 14);
each of the four sentinel cases yields its own distinct verdict string,
and a pic-142 sprite matching none of the four conditions yields no
match. -/
theorem single_player_characterization :
    (∀ m : map_t, (is_single_player m).1 ≠ "No" ↔ ∃ s ∈ m.sprite, sp_matches s) ∧
    (∀ s : sprite_t, s.pic = 142 → s.lotag = 32767 → sp_check s = some sp_msg_32767) ∧
    (∀ s : sprite_t, s.pic = 142 → s.lotag = 65534 → sp_check s = some sp_msg_65534) ∧
    (∀ s : sprite_t, s.pic = 142 → s.lotag = 65535 → sp_check s = some sp_msg_65535) ∧
    (∀ s : sprite_t, s.pic = 142 → s.pal = 14 → s.lotag ≠ 32767 → s.lotag ≠ 65534 →
      s.lotag ≠ 65535 → sp_check s = some sp_msg_secret) ∧
    (∀ s : sprite_t, ¬sp_matches s → sp_check s = none) ∧
    (sp_msg_32767 ≠ sp_msg_65534 ∧ sp_msg_32767 ≠ sp_msg_65535 ∧
     sp_msg_32767 ≠ sp_msg_secret ∧ sp_msg_65534 ≠ sp_msg_65535 ∧
     sp_msg_65534 ≠ sp_msg_secret ∧ sp_msg_65535 ≠ sp_msg_secret) := by
  refine ⟨fun m => ?_, ?_, ?_, ?_, ?_, ?_, by decide⟩
  · unfold is_single_player
    cases hs : sp_scan m.sprite with
    | some r =>
      have hr : r ≠ "No" := by
        obtain ⟨s, _, hcs⟩ := sp_scan_eq_some hs
        exact sp_check_ne_no hcs
      have hm : ∃ s ∈ m.sprite, sp_matches s :=
        (sp_scan_isSome_iff m.sprite).1 (by rw [hs]; rfl)
      simpa using iff_of_true hr hm
    | none =>
      have hm : ¬∃ s ∈ m.sprite, sp_matches s := fun hm => by
        have := (sp_scan_isSome_iff m.sprite).2 hm
        rw [hs] at this
        exact Bool.noConfusion this
      simp [hm]
  · intro s h1 h2
    simp [sp_check, h1, h2]
  · intro s h1 h2
    simp [sp_check, h1, h2]
  · intro s h1 h2
    simp [sp_check, h1, h2]
  · intro s h1 h2 h3 h4 h5
    unfold sp_check
    rw [if_pos h1, if_neg h3, if_neg h4, if_neg h5, if_pos h2]
  · intro s hm
    have := sp_check_isSome_iff s
    cases hc : sp_check s with
    | some r =>
      exact absurd (this.1 (by rw [hc]; rfl)) hm
    | none => rfl

/-- Witness for C2: a concrete map containing a nuke-button sprite is
reported as single player, and the case message of the sprite is the lotag
32767 one. -/
theorem single_player_characterization_witness :
    (is_single_player demo_sp_map).1 ≠ "No" ∧
    sp_check demo_sp_sprite = some sp_msg_32767 := by
  refine ⟨(single_player_characterization.1 demo_sp_map).mpr ⟨demo_sp_sprite, ?_, ?_⟩,
    single_player_characterization.2.1 demo_sp_sprite rfl rfl⟩
  · decide
  · decide

lemma aplayer_foldl (tag : Nat) :
    ∀ (l : List sprite_t) (r : Nat),
      l.foldl (fun r s => if s.pic = 1405 ∧ s.lotag = tag then r + 1 else r) r
        = r + (l.filter (fun s => decide (s.pic = 1405 ∧ s.lotag = tag))).length := by
  intro l
  induction l with
  | nil => intro r; simp
  | cons s rest ih =>
    intro r
    by_cases h : s.pic = 1405 ∧ s.lotag = tag
    · simp only [List.foldl_cons, List.filter_cons, h, if_pos, decide_eq_true_eq]
      rw [ih]
      simp [h]
      omega
    · simp only [List.foldl_cons, List.filter_cons, if_neg h]
      rw [ih]
      simp [h]

lemma aplayer_count_eq_filter (tag : Nat) (l : List sprite_t) :
    aplayer_count tag l
      = (l.filter (fun s => decide (s.pic = 1405 ∧ s.lotag = tag))).length := by
  unfold aplayer_count
  rw [aplayer_foldl]
  omega

/-- Claim C3: the cooperative classifier counts sprites with picture id
1405 and lotag 1, the deathmatch classifier those with lotag 0; a mode
is supported iff its count is positive, the advertised capacity is
count + 1, and a zero count yields "No" rather than a capacity of 0
or 1. -/
theorem multiplayer_counts :
    (∀ m : map_t, aplayer_count 1 m.sprite
      = (m.sprite.filter (fun s => decide (s.pic = 1405 ∧ s.lotag = 1))).length) ∧
    (∀ m : map_t, aplayer_count 0 m.sprite
      = (m.sprite.filter (fun s => decide (s.pic = 1405 ∧ s.lotag = 0))).length) ∧
    (∀ m : map_t, aplayer_count 1 m.sprite = 0 → is_coop m = "No") ∧
    (∀ m : map_t, 0 < aplayer_count 1 m.sprite →
      is_coop m = "Yes (" ++ toString (aplayer_count 1 m.sprite + 1) ++ " players)") ∧
    (∀ m : map_t, aplayer_count 0 m.sprite = 0 → is_dukematch m = "No") ∧
    (∀ m : map_t, 0 < aplayer_count 0 m.sprite →
      is_dukematch m = "Yes (" ++ toString (aplayer_count 0 m.sprite + 1) ++ " players)") := by
  refine ⟨fun m => aplayer_count_eq_filter 1 m.sprite,
          fun m => aplayer_count_eq_filter 0 m.sprite,
          fun m h => ?_, fun m h => ?_, fun m h => ?_, fun m h => ?_⟩
  · simp [is_coop, h]
  · simp [is_coop, Nat.pos_iff_ne_zero.mp h]
  · simp [is_dukematch, h]
  · simp [is_dukematch, Nat.pos_iff_ne_zero.mp h]

/-- Witness for C3: on a map with one cooperative and one deathmatch
player start, both classifiers advertise two players. -/
theorem multiplayer_counts_witness :
    is_coop demo_mp_map
      = "Yes (" ++ toString (aplayer_count 1 demo_mp_map.sprite + 1) ++ " players)" ∧
    is_dukematch demo_mp_map
      = "Yes (" ++ toString (aplayer_count 0 demo_mp_map.sprite + 1) ++ " players)" :=
  ⟨multiplayer_counts.2.2.2.1 demo_mp_map (by decide),
   multiplayer_counts.2.2.2.2.2 demo_mp_map (by decide)⟩

lemma sp_check_set_indices (sec own : Int) (s : sprite_t) :
    sp_check (set_sprite_indices sec own s) = sp_check s := rfl

lemma sp_scan_map_set_indices (sec own : Int) (l : List sprite_t) :
    sp_scan (l.map (set_sprite_indices sec own)) = sp_scan l := by
  induction l with
  | nil => rfl
  | cons s rest ih =>
    simp only [List.map_cons]
    unfold sp_scan
    rw [sp_check_set_indices, ih]

lemma aplayer_foldl_map (tag : Nat) (sec own : Int) :
    ∀ (l : List sprite_t) (r : Nat),
      (l.map (set_sprite_indices sec own)).foldl
          (fun r s => if s.pic = 1405 ∧ s.lotag = tag then r + 1 else r) r
        = l.foldl (fun r s => if s.pic = 1405 ∧ s.lotag = tag then r + 1 else r) r := by
  intro l
  induction l with
  | nil => intro r; rfl
  | cons s rest ih =>
    intro r
    simp only [List.map_cons, List.foldl_cons]
    rw [ih]
    rfl

lemma aplayer_count_map_set_indices (tag : Nat) (sec own : Int) (l : List sprite_t) :
    aplayer_count tag (l.map (set_sprite_indices sec own)) = aplayer_count tag l := by
  unfold aplayer_count
  exact aplayer_foldl_map tag sec own l 0

/-- Claim C6: the four classifier results depend only on sprite
non-index fields and the declared counts: overwriting in every sprite
the cross-array index fields (`sector`, `owner`) with arbitrary — possibly
wildly out-of-range — values and replacing the wall array wholesale
changes no verdict, so the classifiers never follow an index field into
any array. -/
theorem classifier_ignores_index_fields :
    ∀ (m : map_t) (sec own : Int) (w : List wall_t),
      (is_single_player
          (with_walls_sprites m w (m.sprite.map (set_sprite_indices sec own)))).1
        = (is_single_player m).1 ∧
      is_coop (with_walls_sprites m w (m.sprite.map (set_sprite_indices sec own)))
        = is_coop m ∧
      is_dukematch (with_walls_sprites m w (m.sprite.map (set_sprite_indices sec own)))
        = is_dukematch m ∧
      is_vanilla_compatible
          (with_walls_sprites m w (m.sprite.map (set_sprite_indices sec own)))
        = is_vanilla_compatible m := by
  intro m sec own w
  refine ⟨?_, ?_, ?_, rfl⟩
  · unfold is_single_player with_walls_sprites
    rw [sp_scan_map_set_indices]
  · unfold is_coop with_walls_sprites
    rw [aplayer_count_map_set_indices]
  · unfold is_dukematch with_walls_sprites
    rw [aplayer_count_map_set_indices]

lemma mem_scan_violations {α : Type} (p : α → Bool) (g : Nat → violation_t) :
    ∀ (i : Nat) (l : List α) (v : violation_t),
      v ∈ scan_violations p g i l ↔
        ∃ j, ∃ h : j < l.length, p (l.get ⟨j, h⟩) = true ∧ v = g (i + j) := by
  intro i l
  induction l generalizing i with
  | nil => intro v; simp [scan_violations]
  | cons x xs ih =>
    intro v
    unfold scan_violations
    rw [List.mem_append]
    constructor
    · rintro (hv | hv)
      · by_cases hp : p x
        · rw [if_pos hp] at hv
          simp only [List.mem_singleton] at hv
          exact ⟨0, Nat.succ_pos _, hp, by simpa using hv⟩
        · rw [if_neg hp] at hv
          simp at hv
      · obtain ⟨j, hj, hpj, hvj⟩ := (ih (i + 1) v).1 hv
        refine ⟨j + 1, Nat.succ_lt_succ hj, hpj, ?_⟩
        rw [hvj]
        congr 1
        omega
    · rintro ⟨j, hj, hpj, hvj⟩
      cases j with
      | zero =>
        left
        have hp0 : p x = true := hpj
        rw [if_pos hp0]
        simp [hvj]
      | succ j =>
        right
        refine (ih (i + 1) v).2 ⟨j, Nat.lt_of_succ_lt_succ hj, hpj, ?_⟩
        rw [hvj]
        congr 1
        omega

lemma mem_scan_self {α : Type} (p : α → Bool) (g : Nat → violation_t)
    (hg : ∀ a b, g a = g b → a = b) (l : List α) (i : Nat) :
    g i ∈ scan_violations p g 0 l ↔ ∃ h : i < l.length, p (l.get ⟨i, h⟩) = true := by
  rw [mem_scan_violations]
  constructor
  · rintro ⟨j, hj, hp, hEq⟩
    rw [Nat.zero_add] at hEq
    obtain rfl := hg i j hEq
    exact ⟨hj, hp⟩
  · rintro ⟨h, hp⟩
    exact ⟨i, h, hp, by rw [Nat.zero_add]⟩

lemma not_mem_scan {α : Type} (p : α → Bool) (g : Nat → violation_t) (v : violation_t)
    (hv : ∀ j, v ≠ g j) (i : Nat) (l : List α) : v ∉ scan_violations p g i l := by
  rw [mem_scan_violations]
  rintro ⟨j, hj, hp, hEq⟩
  exact hv (i + j) hEq

/-- A sector whose wall range starts at −1: a structural violation. -/
def bad_sector : sector_t :=
  ⟨-1, 0, ⟨0, 0, 0, 0, 0, 0, ⟨0, 0⟩⟩, ⟨0, 0, 0, 0, 0, 0, ⟨0, 0⟩⟩, 0, 0, 0, 0, 0⟩

/-- A structurally invalid map: its only sector has a negative
`wall_start` and its `sector_start` (5) is not a valid sector index. -/
def demo_bad_map : map_t :=
  ⟨0, ⟨⟨0, 0, 0⟩, 0⟩, 5, 1, [bad_sector], 0, [], 0, []⟩

/-- Claim C4 (validator modelled from the spec, the repository source
contains none): the ordered violation list of the validator contains a
sector-range violation for index `i` iff sector `i` exists and has
`wall_start < 0` or `wall_start + wall_count > total_walls`; it contains
a wall or sprite index-field violation for index `i` iff that record
exists and the field is neither −1 nor a valid index of its target
array; and likewise for the map-level `sector_start`. The
characterization holds for every index of every record, so the validator
collects every violation and aborts on none; it is a pure function of
the map and mutates nothing. -/
theorem validator_characterization :
    ∀ m : map_t,
      (∀ i, violation_t.sector_range i ∈ map_validate m ↔
        ∃ h : i < m.sector.length,
          sector_range_bad m.wall.length (m.sector.get ⟨i, h⟩) = true) ∧
      (∀ i, violation_t.wall_next_right_bad i ∈ map_validate m ↔
        ∃ h : i < m.wall.length,
          index_valid m.wall.length ((m.wall.get ⟨i, h⟩).wall_next_right) = false) ∧
      (∀ i, violation_t.wall_next_left_bad i ∈ map_validate m ↔
        ∃ h : i < m.wall.length,
          index_valid m.wall.length ((m.wall.get ⟨i, h⟩).wall_next_left) = false) ∧
      (∀ i, violation_t.wall_next_sector_bad i ∈ map_validate m ↔
        ∃ h : i < m.wall.length,
          index_valid m.sector.length ((m.wall.get ⟨i, h⟩).sector_next) = false) ∧
      (∀ i, violation_t.sprite_sector_bad i ∈ map_validate m ↔
        ∃ h : i < m.sprite.length,
          index_valid m.sector.length ((m.sprite.get ⟨i, h⟩).sector) = false) ∧
      (∀ i, violation_t.sprite_owner_bad i ∈ map_validate m ↔
        ∃ h : i < m.sprite.length,
          index_valid m.sprite.length ((m.sprite.get ⟨i, h⟩).owner) = false) ∧
      (violation_t.sector_start_bad ∈ map_validate m ↔
        index_valid m.sector.length m.sector_start = false) := by
  intro m
  refine ⟨fun i => ?_, fun i => ?_, fun i => ?_, fun i => ?_, fun i => ?_, fun i => ?_, ?_⟩ <;>
    (unfold map_validate
     simp only [List.mem_append, mem_scan_violations, Nat.zero_add, Bool.not_eq_true']
     by_cases hss : index_valid m.sector.length m.sector_start <;> simp [hss])

/-- Witness for C4: on a concrete structurally invalid map, the
validator reports both the sector-range violation of sector 0 and the
out-of-range `sector_start`. -/
theorem validator_characterization_witness :
    violation_t.sector_range 0 ∈ map_validate demo_bad_map ∧
    violation_t.sector_start_bad ∈ map_validate demo_bad_map :=
  ⟨((validator_characterization demo_bad_map).1 0).mpr ⟨by decide, by decide⟩,
   (validator_characterization demo_bad_map).2.2.2.2.2.2.mpr (by decide)⟩
